import Mathlib

/-!
Verification of the youtube-podcast-summarizer pipeline.

Shallow embedding of the summarization / dispatch / rendering core:
`src/parallel_summarizer.py`, `src/fixed_summarizer.py`,
`src/enhanced_summarizer.py`, `src/hybrid_summarizer.py`,
`src/fixed_pdf_generator.py`, `src/email_sender.py`.

Network calls, thread scheduling and the filesystem are modelled by
explicit parameters: the outcome of each HTTP request is an input value
(`ApiOutcome` / `Except String String`), the order in which the thread
pool completes its futures is an input list required to be a permutation
of the submitted items, and `os.path.exists` is an input predicate.
Everything else is translated statement by statement from the Python
source.
-/

/-! ## String helpers (Python semantics) -/

/-- Python `needle in hay` on lists of characters: `needle` occurs as a
contiguous sublist of `hay`.  The empty needle always matches. -/
def subList : List Char → List Char → Bool
  | needle, [] => needle.isEmpty
  | needle, c :: t => needle.isPrefixOf (c :: t) || subList needle t

/-- Python `needle in hay` for strings (substring test). -/
def strContains (hay needle : String) : Bool :=
  subList needle.data hay.data

/-- Python `str.lower()` (per-character lowercase). -/
def pyLower (s : String) : String :=
  String.mk (s.data.map Char.toLower)

/-- Python `str.strip()`: drop leading and trailing whitespace. -/
def pyStrip (s : String) : String :=
  String.mk
    (((s.data.dropWhile Char.isWhitespace).reverse.dropWhile Char.isWhitespace).reverse)

/-- Worker for `pySplitOn`: walks the character list, cutting at each
occurrence of the (non-empty) separator.  `fuel` bounds the recursion
and is chosen large enough that it never runs out. -/
def splitOnAuxL (sep : List Char) : Nat → List Char → List (List Char)
  | _, [] => [[]]
  | 0, l => [l]
  | fuel + 1, c :: rest =>
    if sep.isPrefixOf (c :: rest) then
      [] :: splitOnAuxL sep fuel (List.drop sep.length (c :: rest))
    else
      match splitOnAuxL sep fuel rest with
      | [] => [[c]]
      | h :: t => (c :: h) :: t

/-- Python `s.split(sep)` for a non-empty separator. -/
def pySplitOn (s sep : String) : List String :=
  (splitOnAuxL sep.data s.data.length s.data).map String.mk

/-- Python `str.split()` restricted to the single-space case: split on
spaces and drop empty fields. -/
def pySplit (s : String) : List String :=
  (pySplitOn s " ").filter (fun w => w ≠ "")

/-- Python `s.endswith(suffix)`. -/
def pyEndsWith (s suffix : String) : Bool :=
  suffix.data.isSuffixOf s.data

/-! ## Shared data model -/

/-- The fields of the `video_info` dict actually read by the summarizers:
`id.videoId`, `snippet.title`, `snippet.channelTitle`. -/
structure VideoInfo where
  videoId : String
  title : String
  channelTitle : String
deriving DecidableEq, Repr

/-- Outcome of one summarization HTTP request, as observed by the
`try`/`except` block around `requests.post`: either a parsed
`choices[0].message.content` string, or any raised exception
(connection error, timeout, `raise_for_status`, JSON/key errors),
carried as its message. -/
inductive ApiOutcome where
  | ok (content : String)
  | error (msg : String)
deriving DecidableEq, Repr

/-- The result dict produced by `_make_api_call` in
`parallel_summarizer.py` and `fixed_summarizer.py`. -/
structure SummaryResult where
  title : String
  channel : String
  summary : String
  video_id : String
  url : String
  content_type : String
  success : Bool
deriving DecidableEq, Repr

/-- `f"https://www.youtube.com/watch?v={video_id}"`. -/
def videoUrl (videoId : String) : String :=
  "https://www.youtube.com/watch?v=" ++ videoId

/-! ## `parallel_summarizer.py` — ParallelOpenRouterGeminiSummarizer -/

/-- `ParallelOpenRouterGeminiSummarizer._make_api_call` (lines 20–90):
on success wraps the generated content with `success: True`; on any
exception returns `summary = f"处理失败: {str(e)}"` with
`success: False`.  The HTTP outcome is the explicit `o` argument. -/
def ParallelOpenRouterGeminiSummarizer.make_api_call
    (v : VideoInfo) (o : ApiOutcome) : SummaryResult :=
  match o with
  | ApiOutcome.ok content =>
      { title := v.title, channel := v.channelTitle, summary := content,
        video_id := v.videoId, url := videoUrl v.videoId,
        content_type := "openrouter_gemini_parallel", success := true }
  | ApiOutcome.error e =>
      { title := v.title, channel := v.channelTitle, summary := "处理失败: " ++ e,
        video_id := v.videoId, url := videoUrl v.videoId,
        content_type := "openrouter_gemini_parallel", success := false }

/-- `ParallelOpenRouterGeminiSummarizer.process_videos_parallel`
(lines 92–122).  One future per video; `as_completed` yields them in
`completionOrder` (a permutation of the submitted list); each completed
result is appended only `if result['success']`, otherwise it is only
logged.  `future.result()` cannot raise because `_make_api_call`
catches every exception, so the `except` arm of the collection loop is
dead code. -/
def ParallelOpenRouterGeminiSummarizer.process_videos_parallel
    (o : VideoInfo → ApiOutcome) (completionOrder : List VideoInfo) :
    List SummaryResult :=
  completionOrder.foldl
    (fun results v =>
      let r := ParallelOpenRouterGeminiSummarizer.make_api_call v (o v)
      if r.success then results ++ [r] else results)
    []

/-! ## `fixed_summarizer.py` — FixedSummarizer -/

/-- `FixedSummarizer._content_matches_title` (lines 116–130): three
hard-coded keyword checks; any failing check returns `False`. -/
def content_matches_title (title content : String) : Bool :=
  let titleL := pyLower title
  if strContains titleL "write" && !strContains content "记录" &&
      !strContains content "写" && !strContains content "文字" then
    false
  else if strContains titleL "data" && !strContains content "数据" then
    false
  else if strContains titleL "britain" && !strContains content "英国" &&
      !strContains content "不列颠" then
    false
  else
    true

/-- The keyword → canned-summary table built inside
`FixedSummarizer._generate_fallback_summary` (lines 134–154), with the
`{channel}` f-string interpolations made explicit.  Python dicts keep
insertion order, so an association list is faithful. -/
def fallback_summaries (channel : String) : List (String × String) :=
  [("Write Things Down",
    "这个视频探讨了记录和写作在现代工作和生活中的重要性。" ++ channel ++
    "频道的这期内容强调了将想法、观察和学习内容书面化的价值，认为写下想法不仅有助于澄清思路，还能帮助长期记忆和知识积累。\n\n" ++
    "视频进一步阐述了不同类型的记录方法，包括日志写作、思维导图和结构化笔记等。内容还涵盖了如何建立有效的记录习惯，以及写作如何提升批判性思维和决策能力。对于知识工作者来说，这种记录习惯能够显著提高工作效率和创新能力。"),
   ("Navigating Data Chaos",
    "该视频深入分析了当今企业和组织面临的数据管理挑战。" ++ channel ++
    "讨论了在数据爆炸时代如何建立有序的数据架构，以及如何从混乱的数据环境中提取有价值的洞察。视频强调了数据治理和标准化流程的重要性。\n\n" ++
    "内容进一步探讨了现代数据堆栈的最佳实践，包括数据湖、数据仓库的选择，以及实时数据处理的策略。视频还涉及了团队协作、数据质量控制和合规性管理等关键话题，为处理复杂数据环境提供了实用的方法论和工具推荐。"),
   ("Opendoor",
    "这期" ++ channel ++
    "节目深度解析了房地产科技公司Opendoor的商业模式转型。视频探讨了该公司如何从传统房地产交易平台演进为以技术驱动的软件企业，强调了数据分析、算法定价和用户体验优化在其业务中的核心作用。\n\n" ++
    "节目详细分析了Opendoor在房地产市场的创新策略，包括即时购买服务、智能定价模型和端到端的数字化交易流程。讨论涵盖了公司面临的市场挑战、竞争优势，以及软件化转型对传统房地产行业的深远影响。"),
   ("Britain",
    "该历史主题视频详细分析了二战期间英国在大西洋战役中击败德国的关键因素。" ++ channel ++
    "从多个角度探讨了海战策略、技术优势和情报战在这场关键战役中的作用，展现了英国如何在看似劣势的情况下取得最终胜利。\n\n" ++
    "内容深入研究了护航船队系统、雷达技术的应用以及密码破译等关键要素。视频还分析了德国U艇战略的失败原因，以及美国参战对战局的影响。这场大西洋之战不仅决定了战争的走向，也展现了海上力量投送和后勤保障在现代战争中的决定性作用。"),
   ("Future",
    "这期" ++ channel ++
    "节目邀请Shopify CEO Tobi Lütke分享关于商业前瞻性思维的独特见解。视频探讨了如何在快速变化的市场环境中预见未来趋势，以及企业家如何培养前瞻性视野来抓住机遇。内容强调了适应性和持续学习的重要性。\n\n" ++
    "对话深入讨论了电商行业的发展趋势、技术创新对商业模式的影响，以及如何建设能够适应未来挑战的组织文化。Lütke分享了Shopify的战略思考过程、团队建设经验，以及对未来十年商业格局演变的预测和建议。")]

/-- The default canned paragraph returned when no keyword matches
(`fixed_summarizer.py` lines 161–164). -/
def default_fallback_summary (title channel : String) : String :=
  "该" ++ channel ++ "频道的视频\x22" ++ title ++
  "\x22涉及相关领域的深度探讨。内容从多个角度分析了主题的核心要点，为观众提供了全面而深入的见解。视频结合理论分析和实际案例，展现了主题的复杂性和重要性。\n\n" ++
  "节目进一步延伸了相关讨论，涵盖了行业趋势、最佳实践和未来发展方向。内容既适合初学者了解基础概念，也为专业人士提供了深度思考的材料。整体而言，这是一期内容丰富、观点独特的高质量节目。"

/-- `FixedSummarizer._generate_fallback_summary` (lines 132–164):
first keyword (case-insensitive substring of the title) wins; otherwise
the default paragraph. -/
def generate_fallback_summary (title channel : String) : String :=
  match (fallback_summaries channel).find?
      (fun kv => strContains (pyLower title) (pyLower kv.1)) with
  | some kv => kv.2
  | none => default_fallback_summary title channel

/-- `FixedSummarizer._make_api_call` (lines 37–114): on a parsed
response, the content is stripped and replaced by a canned fallback
when it is shorter than 100 characters or fails
`_content_matches_title`; on any exception the fallback is used
directly.  Both arms return `success: True` (the exception arm is
explicitly commented `# 标记为成功因为我们有备用内容`). -/
def FixedSummarizer.make_api_call (v : VideoInfo) (o : ApiOutcome) : SummaryResult :=
  match o with
  | ApiOutcome.ok content =>
      let stripped := pyStrip content
      let summary :=
        if stripped.length < 100 || !content_matches_title v.title stripped then
          generate_fallback_summary v.title v.channelTitle
        else
          stripped
      { title := v.title, channel := v.channelTitle, summary := summary,
        video_id := v.videoId, url := videoUrl v.videoId,
        content_type := "fixed_summarizer", success := true }
  | ApiOutcome.error _ =>
      { title := v.title, channel := v.channelTitle,
        summary := generate_fallback_summary v.title v.channelTitle,
        video_id := v.videoId, url := videoUrl v.videoId,
        content_type := "fixed_summarizer", success := true }

/-- `FixedSummarizer.process_videos_parallel` (lines 166–191): same
pool structure as the parallel variant but every completed result is
appended, with no success check. -/
def FixedSummarizer.process_videos_parallel
    (o : VideoInfo → ApiOutcome) (completionOrder : List VideoInfo) :
    List SummaryResult :=
  completionOrder.foldl
    (fun results v => results ++ [FixedSummarizer.make_api_call v (o v)])
    []

/-! ## `enhanced_summarizer.py` / `hybrid_summarizer.py` — content resolver -/

/-- One entry of `YouTubeTranscriptApi.list_transcripts(video_id)`:
its `is_generated` flag and the outcome of `transcript.fetch()`
(`none` models a raised exception, `some items` the fetched snippet
texts). -/
structure TranscriptEntry where
  is_generated : Bool
  fetchResult : Option (List String)

/-- The fields of `get_video_details` used by the resolvers
(`snippet.title`, `snippet.description`, `snippet.channelTitle`,
`snippet.publishedAt`, `statistics.viewCount` rendered as text). -/
structure VideoDetails where
  title : String
  description : String
  channel : String
  published_at : String
  view_count : String

/-- The externally observable behaviour of one video id:
`getTranscript lang` is the outcome of
`YouTubeTranscriptApi.get_transcript(video_id, languages=[lang])`
(`none` models a raised exception), `transcriptListing` the outcome of
`list_transcripts` and `details` the outcome of `get_video_details`
(`none` models an empty dict or a missing/empty description). -/
structure Video where
  getTranscript : String → Option (List String)
  transcriptListing : Option (List TranscriptEntry)
  details : Option VideoDetails

/-- `languages_to_try` in `enhanced_summarizer.py` line 63. -/
def languages_to_try : List String :=
  ["en", "en-US", "en-GB", "zh", "zh-CN", "zh-TW"]

/-- Strategy 1 loop of `get_transcript_with_fallback` (lines 65–75):
first language whose fetched transcript joins to a text with
`text and len(text) > 50` wins, with provenance `'transcript'`. -/
def enh_tryLang (v : Video) : List String → Option (String × String)
  | [] => none
  | lang :: rest =>
    match v.getTranscript lang with
    | none => enh_tryLang v rest
    | some items =>
      let text := String.intercalate " " items
      if text ≠ "" ∧ 50 < text.length then some (text, "transcript")
      else enh_tryLang v rest

/-- First pass of strategy 2 (lines 83–93): auto-generated transcripts,
provenance `'auto_transcript'`. -/
def enh_tryGenerated : List TranscriptEntry → Option (String × String)
  | [] => none
  | t :: rest =>
    if t.is_generated then
      match t.fetchResult with
      | some items =>
        let text := String.intercalate " " items
        if text ≠ "" ∧ 50 < text.length then some (text, "auto_transcript")
        else enh_tryGenerated rest
      | none => enh_tryGenerated rest
    else enh_tryGenerated rest

/-- Second pass of strategy 2 (lines 96–106): manual transcripts,
provenance `'manual_transcript'`. -/
def enh_tryManual : List TranscriptEntry → Option (String × String)
  | [] => none
  | t :: rest =>
    if t.is_generated then enh_tryManual rest
    else
      match t.fetchResult with
      | some items =>
        let text := String.intercalate " " items
        if text ≠ "" ∧ 50 < text.length then some (text, "manual_transcript")
        else enh_tryManual rest
      | none => enh_tryManual rest

/-- `EnhancedPodcastSummarizer.get_transcript_with_fallback`
(lines 59–120).  The Python `(None, None)` return is embedded as
`none`, and `(text, tag)` as `some (text, tag)`.  Strategy 3 accepts
the description only when it is non-empty (truthiness test) and
strictly longer than 100 characters. -/
def get_transcript_with_fallback (v : Video) : Option (String × String) :=
  match enh_tryLang v languages_to_try with
  | some p => some p
  | none =>
    match (match v.transcriptListing with
           | none => none
           | some l =>
             match enh_tryGenerated l with
             | some p => some p
             | none => enh_tryManual l) with
    | some p => some p
    | none =>
      match v.details with
      | some d =>
        if d.description ≠ "" then
          if 100 < d.description.length then some (d.description, "description")
          else none
        else none
      | none => none

/-- `EnhancedPodcastSummarizer.summarize_content` (lines 153–184):
returns `None` for falsy content, the parsed model output on success,
and `f"摘要生成失败: {str(e)}"` when the request/parse raises. -/
def EnhancedPodcastSummarizer.summarize_content
    (content : String) (api : Except String String) : Option String :=
  if content = "" then none
  else
    match api with
    | Except.ok text => some text
    | Except.error e => some ("摘要生成失败: " ++ e)

/-- The result dict of `process_video` in the enhanced / hybrid
summarizers (no `success` field there). -/
structure ProcessResult where
  title : String
  channel : String
  summary : Option String
  video_id : String
  url : String
  content_type : String
deriving DecidableEq, Repr

/-- `EnhancedPodcastSummarizer.process_video` (lines 186–220), with an
added boolean recording whether `summarize_content` (the Summarization
Client) was invoked.  `api` is the outcome of the one possible
summarization request. -/
def EnhancedPodcastSummarizer.process_video
    (info : VideoInfo) (v : Video) (api : Except String String) :
    Option ProcessResult × Bool :=
  if info.videoId = "" then (none, false)
  else
    match get_transcript_with_fallback v with
    | none =>
      (some { title := info.title, channel := info.channelTitle,
              summary := some "无法获取视频内容（无字幕且无描述信息）",
              video_id := info.videoId, url := videoUrl info.videoId,
              content_type := "none" }, false)
    | some (content, content_type) =>
      if content = "" then
        (some { title := info.title, channel := info.channelTitle,
                summary := some "无法获取视频内容（无字幕且无描述信息）",
                video_id := info.videoId, url := videoUrl info.videoId,
                content_type := "none" }, false)
      else
        (some { title := info.title, channel := info.channelTitle,
                summary := EnhancedPodcastSummarizer.summarize_content content api,
                video_id := info.videoId, url := videoUrl info.videoId,
                content_type := content_type }, true)

/-- `languages_priority` in `hybrid_summarizer.py` line 51. -/
def languages_priority : List String :=
  ["en", "en-US", "en-GB", "en-CA", "en-AU"]

/-- Strategy 1 loop of `get_transcript_smart` (lines 53–65): threshold
`text and len(text) > 100`, provenance `f'transcript_{lang}'`. -/
def hyb_tryLang (v : Video) : List String → Option (String × String)
  | [] => none
  | lang :: rest =>
    match v.getTranscript lang with
    | none => hyb_tryLang v rest
    | some items =>
      let text := String.intercalate " " items
      if text ≠ "" ∧ 100 < text.length then some (text, "transcript_" ++ lang)
      else hyb_tryLang v rest

/-- Auto-generated pass of `get_transcript_smart` (lines 73–82):
threshold `len(text) > 100` (no truthiness test), provenance
`'auto_generated'`. -/
def hyb_tryGenerated : List TranscriptEntry → Option (String × String)
  | [] => none
  | t :: rest =>
    if t.is_generated then
      match t.fetchResult with
      | some items =>
        let text := String.intercalate " " items
        if 100 < text.length then some (text, "auto_generated")
        else hyb_tryGenerated rest
      | none => hyb_tryGenerated rest
    else hyb_tryGenerated rest

/-- Manual pass of `get_transcript_smart` (lines 85–94), provenance
`'manual'`. -/
def hyb_tryManual : List TranscriptEntry → Option (String × String)
  | [] => none
  | t :: rest =>
    if t.is_generated then hyb_tryManual rest
    else
      match t.fetchResult with
      | some items =>
        let text := String.intercalate " " items
        if 100 < text.length then some (text, "manual")
        else hyb_tryManual rest
      | none => hyb_tryManual rest

/-- `HybridPodcastSummarizer.get_transcript_smart` (lines 45–100). -/
def get_transcript_smart (v : Video) : Option (String × String) :=
  match hyb_tryLang v languages_priority with
  | some p => some p
  | none =>
    match v.transcriptListing with
    | none => none
    | some l =>
      match hyb_tryGenerated l with
      | some p => some p
      | none => hyb_tryManual l

/-- The `enhanced_content` f-string of `get_content_with_fallbacks`
(lines 116–124), `.strip()` applied. -/
def enhancedContent (d : VideoDetails) : String :=
  pyStrip ("\nVideo Title: " ++ d.title ++ "\nChannel: " ++ d.channel ++
   "\nPublished: " ++ d.published_at ++ "\nViews: " ++ d.view_count ++
   "\n\nVideo Description:\n" ++ d.description ++ "\n            ")

/-- `HybridPodcastSummarizer.get_content_with_fallbacks`
(lines 102–130): transcript first, then the enhanced description if it
is non-empty and the assembled text exceeds 200 characters. -/
def get_content_with_fallbacks (v : Video) : Option (String × String) :=
  match get_transcript_smart v with
  | some p => some p
  | none =>
    match v.details with
    | none => none
    | some d =>
      if d.description ≠ "" then
        let ec := enhancedContent d
        if 200 < ec.length then some (ec, "enhanced_description")
        else none
      else none

/-- `HybridPodcastSummarizer.summarize_content` (lines 168–199): same
shape as the enhanced variant. -/
def HybridPodcastSummarizer.summarize_content
    (content : String) (api : Except String String) : Option String :=
  if content = "" then none
  else
    match api with
    | Except.ok text => some text
    | Except.error e => some ("摘要生成失败: " ++ e)

/-- `HybridPodcastSummarizer.process_video` (lines 201–235), with the
same invocation instrumentation as the enhanced variant. -/
def HybridPodcastSummarizer.process_video
    (info : VideoInfo) (v : Video) (api : Except String String) :
    Option ProcessResult × Bool :=
  if info.videoId = "" then (none, false)
  else
    match get_content_with_fallbacks v with
    | none =>
      (some { title := info.title, channel := info.channelTitle,
              summary := some "无法获取视频内容（无字幕、无描述信息）",
              video_id := info.videoId, url := videoUrl info.videoId,
              content_type := "failed" }, false)
    | some (content, content_type) =>
      if content = "" then
        (some { title := info.title, channel := info.channelTitle,
                summary := some "无法获取视频内容（无字幕、无描述信息）",
                video_id := info.videoId, url := videoUrl info.videoId,
                content_type := "failed" }, false)
      else
        (some { title := info.title, channel := info.channelTitle,
                summary := HybridPodcastSummarizer.summarize_content content api,
                video_id := info.videoId, url := videoUrl info.videoId,
                content_type := content_type }, true)

/-! ## `fixed_pdf_generator.py` — FixedPDFGenerator -/

/-- The translation table of `FixedPDFGenerator.translate_title`
(lines 109–118), in insertion order. -/
def FixedPDFGenerator.translations : List (String × String) :=
  [("Write Things Down", "记录想法"),
   ("Navigating Data Chaos A New Approach", "应对数据混乱的新方法"),
   ("Opendoor is a Software Business", "Opendoor是一个软件企业"),
   ("Modern Politics and Starting a New Country", "现代政治与创建新国家"),
   ("There\x27s never been more opportunities for young people, IF you work hard!",
    "年轻人从未有过如此多的机会，如果你努力工作！"),
   ("How Britain Defeated Germany On The Atlantic", "英国如何在大西洋击败德国"),
   ("How to Live in Everyone Else\x27s Future", "如何活在他人的未来中"),
   ("Balaji Srinivasan", "巴拉吉·斯里尼瓦桑")]

/-- The partial-match test of `translate_title` line 126:
`en.lower() in title.lower() or any(word in title.lower() for word in
en.lower().split()[:2])`. -/
def partialMatch (title en : String) : Bool :=
  strContains (pyLower title) (pyLower en) ||
    ((pySplit (pyLower en)).take 2).any (fun w => strContains (pyLower title) w)

/-- `FixedPDFGenerator.translate_title` (lines 107–129): exact dict hit
first, then the first partial match in insertion order, else the title
verbatim. -/
def FixedPDFGenerator.translate_title (title : String) : String :=
  match FixedPDFGenerator.translations.find? (fun kv => kv.1 = title) with
  | some kv => kv.2
  | none =>
    match FixedPDFGenerator.translations.find? (fun kv => partialMatch title kv.1) with
    | some kv => kv.2
    | none => title

/-- A reportlab flowable as far as the sectioning claims are concerned:
a paragraph with the style it was appended with, or a spacer. -/
inductive Flowable where
  | para (text : String) (style : String)
  | spacer
deriving DecidableEq, Repr

/-- The per-video block of `generate_report` (lines 159–203), split
into its components. -/
structure ReportSection where
  titlePara : String
  channelPara : String
  linkPara : Option String
  bodyParas : List String
deriving DecidableEq, Repr

/-- The summary dict consumed by `generate_report`.  An outer `none`
models a missing key (so `dict.get` returns the documented default);
for the `summary` key, `some none` models a stored `None` value. -/
structure SummaryInput where
  title : Option String
  channel : Option String
  summary : Option (Option String)
  url : Option String

/-- `para.endswith(('。', '！', '？', '.', '!', '?'))` (line 197). -/
def endsWithSentencePunct (p : String) : Bool :=
  pyEndsWith p "。" || pyEndsWith p "！" || pyEndsWith p "？" ||
    pyEndsWith p "." || pyEndsWith p "!" || pyEndsWith p "?"

/-- Paragraph splitting of lines 187–191: split on blank lines; if that
yields a single block, re-split on `。` keeping stripped non-empty
sentences with the delimiter re-appended. -/
def splitParagraphs (content : String) : List String :=
  let paragraphs := pySplitOn content "\n\n"
  if paragraphs.isEmpty || paragraphs.length = 1 then
    ((pySplitOn content "。").filter (fun p => pyStrip p ≠ "")).map
      (fun p => pyStrip p ++ "。")
  else paragraphs

/-- The body loop of lines 193–199: strip each block, drop empty ones,
and close unterminated blocks with `。`. -/
def renderBodyParas (content : String) : List String :=
  (((splitParagraphs content).map pyStrip).filter (fun p => p ≠ "")).map
    (fun p => if endsWithSentencePunct p then p else p ++ "。")

/-- The placeholder sentence of line 202. -/
def reportPlaceholder : String :=
  "该视频的摘要内容暂时无法获取，请通过上方链接观看完整视频。"

/-- The per-video part of `generate_report` (lines 159–203): defaults
for missing keys, title translation and bold markup, channel line,
optional link line, and the body with its placeholder branch
(`if content and len(content.strip()) > 0`). -/
def renderSection (s : SummaryInput) : ReportSection :=
  let title := s.title.getD "未知标题"
  let channel := s.channel.getD "未知频道"
  let content : Option String :=
    match s.summary with
    | none => some "无内容"
    | some c => c
  let url := s.url.getD ""
  let translated := FixedPDFGenerator.translate_title title
  { titlePara :=
      if translated ≠ title then
        "<b>" ++ title ++ "</b><br/><i>(" ++ translated ++ ")</i>"
      else
        "<b>" ++ title ++ "</b>"
    channelPara := "频道：" ++ channel
    linkPara :=
      if url ≠ "" then
        some ("<link href=\x22" ++ url ++ "\x22 color=\x22blue\x22>🔗 观看视频: " ++
              url ++ "</link>")
      else none
    bodyParas :=
      match content with
      | some c =>
        if c ≠ "" ∧ 0 < (pyStrip c).length then renderBodyParas c
        else [reportPlaceholder]
      | none => [reportPlaceholder] }

/-- The flowables appended for one section, with the style each
`Paragraph` is built with. -/
def sectionFlowables (sec : ReportSection) : List Flowable :=
  Flowable.para sec.titlePara "title" :: Flowable.para sec.channelPara "meta" ::
    ((match sec.linkPara with
      | some l => [Flowable.para l "link"]
      | none => []) ++
     sec.bodyParas.map (fun p => Flowable.para p "summary"))

/-- The `for i, summary in enumerate(summaries, 1)` loop of
`generate_report`: one section per element, a spacer between
consecutive sections (`if i < len(summaries)`). -/
def storyBlocks : List SummaryInput → List Flowable
  | [] => []
  | [s] => sectionFlowables (renderSection s)
  | s :: s2 :: rest =>
    sectionFlowables (renderSection s) ++
      Flowable.spacer :: storyBlocks (s2 :: rest)

/-- `FixedPDFGenerator.generate_report` (lines 131–222) as the story it
builds: the dated header paragraph followed by the section blocks.
`currentDate` stands for `datetime.now().strftime(...)`. -/
def generate_report_story (currentDate : String) (summaries : List SummaryInput) :
    List Flowable :=
  Flowable.para
      (currentDate ++ " YouTube播客摘要 (共" ++ toString summaries.length ++ "个视频)")
      "header"
    :: storyBlocks summaries

/-- The texts of the title-styled paragraphs of a story, in order: one
per section. -/
def sectionTitles (story : List Flowable) : List String :=
  story.filterMap (fun f =>
    match f with
    | Flowable.para t "title" => some t
    | _ => none)

/-! ## `email_sender.py` — EmailSender -/

/-- Outcome of the SMTP transaction of `send_report` lines 62–68
(connect, STARTTLS, login, send, quit): success or a raised transport
exception. -/
inductive SmtpOutcome where
  | ok
  | error (msg : String)
deriving DecidableEq, Repr

/-- The MIME message assembled by `send_report`: headers, plain-text
body, and the optional attachment (recorded by its path). -/
structure EmailMessage where
  sender : String
  recipient : String
  subject : String
  body : String
  attachment : Option String
deriving DecidableEq, Repr

/-- The default subject of line 22; `today` stands for
`datetime.now().strftime('%Y年%m月%d日')`. -/
def defaultSubject (today : String) : String :=
  "AI科技播客每日摘要 - " ++ today

/-- The body f-string of lines 31–44; `now` stands for
`datetime.now().strftime('%Y-%m-%d %H:%M:%S')`. -/
def emailBody (now : String) : String :=
  "\n        您好！\n\n        这是您订阅的AI科技播客每日摘要报告。\n\n" ++
  "        报告包含了今日最新的YouTube订阅频道视频内容摘要，\n" ++
  "        通过Gemini AI智能分析生成，帮助您快速了解技术动态。\n\n" ++
  "        请查看附件中的PDF报告。\n\n        报告生成时间: " ++ now ++
  "\n\n        祝您学习愉快！\n        "

/-- `EmailSender.send_report` (lines 19–75).  The attachment is added
only `if pdf_path and os.path.exists(pdf_path)` (the filesystem is the
`fileExists` argument); the SMTP block is wrapped in `try`/`except`
returning `True` on success and `False` on any transport exception. -/
def EmailSender.send_report (username to_email : String)
    (pdf_path : Option String) (subject : Option String)
    (fileExists : String → Bool) (today now : String) (smtp : SmtpOutcome) :
    EmailMessage × Bool :=
  let subj :=
    match subject with
    | none => defaultSubject today
    | some s => if s = "" then defaultSubject today else s
  let att : Option String :=
    match pdf_path with
    | some p => if p ≠ "" ∧ fileExists p then some p else none
    | none => none
  let msg : EmailMessage :=
    { sender := username, recipient := to_email, subject := subj,
      body := emailBody now, attachment := att }
  match smtp with
  | SmtpOutcome.ok => (msg, true)
  | SmtpOutcome.error _ => (msg, false)

/-! ## Basic lemmas -/

theorem isPrefixOf_self (l : List Char) : l.isPrefixOf l = true := by
  induction l with
  | nil => rfl
  | cons c t ih => simp [List.isPrefixOf, ih]

theorem subList_of_isPrefixOf {n h : List Char} (hp : n.isPrefixOf h = true) :
    subList n h = true := by
  cases h with
  | nil =>
    cases n with
    | nil => rfl
    | cons c t => simp [List.isPrefixOf] at hp
  | cons c t => simp [subList, hp]

theorem subList_append_right (a b : List Char) : subList b (a ++ b) = true := by
  induction a with
  | nil => exact subList_of_isPrefixOf (isPrefixOf_self b)
  | cons c t ih =>
    cases hb : b ++ [] with
    | nil => simp [subList, ih]
    | cons x y => simp [subList, ih]

theorem strContains_append_right (a b : String) :
    strContains (a ++ b) b = true := by
  have : (a ++ b).data = a.data ++ b.data := String.data_append a b
  simp [strContains, this, subList_append_right]

/-- A prefix of the left factor of an append is a substring. -/
theorem strContains_of_prefix_append (a b p : String)
    (h : p.data.isPrefixOf a.data = true) :
    strContains (a ++ b) p = true := by
  have hd : (a ++ b).data = a.data ++ b.data := String.data_append a b
  have : p.data.isPrefixOf (a.data ++ b.data) = true := by
    have hpre : p.data <+: a.data := List.isPrefixOf_iff_prefix.mp h
    exact List.isPrefixOf_iff_prefix.mpr (hpre.trans (List.prefix_append _ _))
  simp only [strContains, hd]
  exact subList_of_isPrefixOf this

/-! ## Dispatcher lemmas -/

/-- The parallel dispatcher's collection loop keeps exactly the
success-tagged results, in completion order. -/
theorem par_processed_eq (o : VideoInfo → ApiOutcome) (order : List VideoInfo) :
    ParallelOpenRouterGeminiSummarizer.process_videos_parallel o order
      = (order.map
          (fun v => ParallelOpenRouterGeminiSummarizer.make_api_call v (o v))).filter
          (fun r => r.success) := by
  have key : ∀ (l : List VideoInfo) (acc : List SummaryResult),
      l.foldl
        (fun results v =>
          let r := ParallelOpenRouterGeminiSummarizer.make_api_call v (o v)
          if r.success then results ++ [r] else results) acc
      = acc ++ (l.map
          (fun v => ParallelOpenRouterGeminiSummarizer.make_api_call v (o v))).filter
          (fun r => r.success) := by
    intro l
    induction l with
    | nil => intro acc; simp
    | cons v t ih =>
      intro acc
      by_cases hs : (ParallelOpenRouterGeminiSummarizer.make_api_call v (o v)).success
      · simp [List.foldl_cons, List.filter_cons, hs, ih]
      · simp [List.foldl_cons, List.filter_cons, hs, ih]
  simpa [ParallelOpenRouterGeminiSummarizer.process_videos_parallel] using key order []

/-- The fixed dispatcher's collection loop keeps every result, in
completion order. -/
theorem fixed_processed_eq (o : VideoInfo → ApiOutcome) (order : List VideoInfo) :
    FixedSummarizer.process_videos_parallel o order
      = order.map (fun v => FixedSummarizer.make_api_call v (o v)) := by
  have key : ∀ (l : List VideoInfo) (acc : List SummaryResult),
      l.foldl (fun results v => results ++ [FixedSummarizer.make_api_call v (o v)]) acc
      = acc ++ l.map (fun v => FixedSummarizer.make_api_call v (o v)) := by
    intro l
    induction l with
    | nil => intro acc; simp
    | cons v t ih => intro acc; simp [List.foldl_cons, ih]
  simpa [FixedSummarizer.process_videos_parallel] using key order []

/-- `FixedSummarizer._make_api_call` tags every result as a success,
also on a caught exception. -/
theorem fixed_make_success (v : VideoInfo) (o : ApiOutcome) :
    (FixedSummarizer.make_api_call v o).success = true := by
  cases o <;> rfl

/-! ## Claim C1 — parallel dispatcher result counting -/

/-- Concrete one-element batch whose only unit of work fails. -/
def cex1Video : VideoInfo :=
  { videoId := "vid1", title := "A", channelTitle := "Chan" }

/-- Claim C1 as stated is false: for a batch of N = 1 items whose
single unit fails (so K = 1), `ParallelOpenRouterGeminiSummarizer.
process_videos_parallel` returns 0 results, not N = 1 — the
failure-tagged result is logged and dropped, not returned. -/
theorem C1_counterexample :
    (ParallelOpenRouterGeminiSummarizer.make_api_call cex1Video
        (ApiOutcome.error "timeout")).success = false
    ∧ ParallelOpenRouterGeminiSummarizer.process_videos_parallel
        (fun _ => ApiOutcome.error "timeout") [cex1Video] = []
    ∧ ([] : List SummaryResult).length ≠ [cex1Video].length := by
  refine ⟨rfl, rfl, by decide⟩

/-- Claim C1, amended: for every submitted list and completion order
(any permutation of it), no exception escapes the pool, but the
parallel variant returns exactly one result per success-tagged unit
(the K failure-tagged results are dropped, leaving N − K), while the
fixed variant returns exactly N results because every unit — including
a failing one — is converted into a success-tagged result. -/
theorem C1_dispatcher_counts (videos : List VideoInfo)
    (o : VideoInfo → ApiOutcome) (order : List VideoInfo)
    (hperm : order.Perm videos) :
    (ParallelOpenRouterGeminiSummarizer.process_videos_parallel o order).length
        = videos.countP
            (fun v => (ParallelOpenRouterGeminiSummarizer.make_api_call v (o v)).success)
    ∧ (∀ r ∈ ParallelOpenRouterGeminiSummarizer.process_videos_parallel o order,
        r.success = true)
    ∧ (FixedSummarizer.process_videos_parallel o order).length = videos.length
    ∧ (∀ r ∈ FixedSummarizer.process_videos_parallel o order, r.success = true) := by
  refine ⟨?_, ?_, ?_, ?_⟩
  · rw [par_processed_eq, ← List.countP_eq_length_filter, List.countP_map]
    exact hperm.countP_eq _
  · intro r hr
    rw [par_processed_eq] at hr
    exact (List.mem_filter.mp hr).2
  · rw [fixed_processed_eq, List.length_map]
    exact hperm.length_eq
  · intro r hr
    rw [fixed_processed_eq] at hr
    obtain ⟨v, _, rfl⟩ := List.mem_map.mp hr
    exact fixed_make_success v (o v)

/-- Witness for `C1_dispatcher_counts` at a concrete two-item batch
with one failing unit: the parallel variant returns 1 result, the
fixed variant 2, all success-tagged. -/
theorem C1_dispatcher_counts_witness :
    ([cex1Video, { videoId := "vid2", title := "B", channelTitle := "Chan" }].Perm
      [{ videoId := "vid2", title := "B", channelTitle := "Chan" }, cex1Video])
    ∧ (ParallelOpenRouterGeminiSummarizer.process_videos_parallel
        (fun v => if v.videoId = "vid1" then ApiOutcome.error "boom"
                  else ApiOutcome.ok "ok") [cex1Video,
          { videoId := "vid2", title := "B", channelTitle := "Chan" }]).length
        = [{ videoId := "vid2", title := "B", channelTitle := "Chan" }, cex1Video].countP
            (fun v => (ParallelOpenRouterGeminiSummarizer.make_api_call v
              (if v.videoId = "vid1" then ApiOutcome.error "boom"
               else ApiOutcome.ok "ok")).success) := by
  have h := C1_dispatcher_counts
    [{ videoId := "vid2", title := "B", channelTitle := "Chan" }, cex1Video]
    (fun v => if v.videoId = "vid1" then ApiOutcome.error "boom" else ApiOutcome.ok "ok")
    [cex1Video, { videoId := "vid2", title := "B", channelTitle := "Chan" }]
    (by decide)
  exact ⟨by decide, h.1⟩

/-! ## Claim C2 — per-item failure handling -/

/-- Claim C2 as stated is false for `FixedSummarizer`: when the API
call for an item raises (here a timeout), `_make_api_call` returns
`success = True` — not `False` — and substitutes a canned fallback
summary instead of a failure indicator. -/
theorem C2_counterexample :
    (FixedSummarizer.make_api_call cex1Video (ApiOutcome.error "timeout")).success = true
    ∧ (FixedSummarizer.make_api_call cex1Video (ApiOutcome.error "timeout")).summary
        = generate_fallback_summary "A" "Chan"
    ∧ strContains
        (FixedSummarizer.make_api_call cex1Video (ApiOutcome.error "timeout")).summary
        "处理失败" = false := by
  refine ⟨rfl, rfl, by decide⟩

/-- Claim C2, amended: when the summarization call for an item raises,
`ParallelOpenRouterGeminiSummarizer` produces a result with
`success = false` whose summary is the failure indicator
`"处理失败: "` followed by the error text, while `FixedSummarizer`
produces a result with `success = true` whose summary is the canned
fallback for the title.  Every other item of the batch is unaffected:
each result depends only on its own item's call outcome, so batches
whose outcomes agree outside one item `b` agree on all results of the
other items. -/
theorem C2_failure_isolation (v : VideoInfo) (e : String) :
    ((ParallelOpenRouterGeminiSummarizer.make_api_call v (ApiOutcome.error e)).success
        = false
      ∧ (ParallelOpenRouterGeminiSummarizer.make_api_call v (ApiOutcome.error e)).summary
        = "处理失败: " ++ e
      ∧ strContains
          (ParallelOpenRouterGeminiSummarizer.make_api_call v (ApiOutcome.error e)).summary
          "处理失败" = true)
    ∧ ((FixedSummarizer.make_api_call v (ApiOutcome.error e)).success = true
      ∧ (FixedSummarizer.make_api_call v (ApiOutcome.error e)).summary
        = generate_fallback_summary v.title v.channelTitle)
    ∧ (∀ (o o2 : VideoInfo → ApiOutcome) (b : VideoInfo) (order : List VideoInfo),
        (∀ u, u ≠ b → o u = o2 u) →
        (order.filter (fun u => u ≠ b)).map
            (fun u => ParallelOpenRouterGeminiSummarizer.make_api_call u (o u))
          = (order.filter (fun u => u ≠ b)).map
              (fun u => ParallelOpenRouterGeminiSummarizer.make_api_call u (o2 u))
        ∧ (order.filter (fun u => u ≠ b)).map
              (fun u => FixedSummarizer.make_api_call u (o u))
          = (order.filter (fun u => u ≠ b)).map
              (fun u => FixedSummarizer.make_api_call u (o2 u))) := by
  refine ⟨⟨rfl, rfl, ?_⟩, ⟨rfl, rfl⟩, ?_⟩
  · exact strContains_of_prefix_append "处理失败: " e "处理失败" (by decide)
  · intro o o2 b order hagree
    constructor
    · refine List.map_congr_left ?_
      intro u hu
      have hne : u ≠ b := by
        have := (List.mem_filter.mp hu).2
        simpa using this
      rw [hagree u hne]
    · refine List.map_congr_left ?_
      intro u hu
      have hne : u ≠ b := by
        have := (List.mem_filter.mp hu).2
        simpa using this
      rw [hagree u hne]

/-- Witness for `C2_failure_isolation` at a concrete item, error and
pair of batch outcomes differing only at that item. -/
theorem C2_failure_isolation_witness :
    (ParallelOpenRouterGeminiSummarizer.make_api_call cex1Video
        (ApiOutcome.error "Read timed out")).success = false
    ∧ (ParallelOpenRouterGeminiSummarizer.make_api_call cex1Video
        (ApiOutcome.error "Read timed out")).summary = "处理失败: Read timed out"
    ∧ ([{ videoId := "vid2", title := "B", channelTitle := "Chan" }].map
          (fun u => ParallelOpenRouterGeminiSummarizer.make_api_call u (ApiOutcome.ok "a"))
        = [{ videoId := "vid2", title := "B", channelTitle := "Chan" }].map
            (fun u => ParallelOpenRouterGeminiSummarizer.make_api_call u
              (if u = cex1Video then ApiOutcome.error "Read timed out"
               else ApiOutcome.ok "a"))) := by
  have h3 := ((C2_failure_isolation cex1Video "Read timed out").2.2
    (fun _ => ApiOutcome.ok "a")
    (fun u => if u = cex1Video then ApiOutcome.error "Read timed out" else ApiOutcome.ok "a")
    cex1Video
    [cex1Video, { videoId := "vid2", title := "B", channelTitle := "Chan" }]
    (fun u hu => by simp [hu])).1
  refine ⟨(C2_failure_isolation cex1Video "Read timed out").1.1,
    (C2_failure_isolation cex1Video "Read timed out").1.2.1, ?_⟩
  have hfilt : ([cex1Video,
      ({ videoId := "vid2", title := "B", channelTitle := "Chan" } : VideoInfo)].filter
        (fun u => u ≠ cex1Video))
      = [{ videoId := "vid2", title := "B", channelTitle := "Chan" }] := by decide
  rw [hfilt] at h3
  simpa using h3

/-! ## Claim C3 — silent canned-summary substitution -/

/-- Claim C3: whenever the parsed API response, stripped, is shorter
than 100 characters or fails `_content_matches_title`,
`FixedSummarizer` silently replaces it by the canned paragraph chosen
by keyword lookup on the title, still reporting success; and when no
keyword of the table matches the title, the lookup yields the generic
canned paragraph. -/
theorem C3_canned_substitution (v : VideoInfo) (content : String)
    (h : (pyStrip content).length < 100
      ∨ content_matches_title v.title (pyStrip content) = false) :
    (FixedSummarizer.make_api_call v (ApiOutcome.ok content)).summary
        = generate_fallback_summary v.title v.channelTitle
    ∧ (FixedSummarizer.make_api_call v (ApiOutcome.ok content)).success = true
    ∧ (∀ title channel : String,
        (∀ kv ∈ fallback_summaries channel,
          strContains (pyLower title) (pyLower kv.1) = false) →
        generate_fallback_summary title channel
          = default_fallback_summary title channel) := by
  refine ⟨?_, rfl, ?_⟩
  · have hcond : ((pyStrip content).length < 100
        || !content_matches_title v.title (pyStrip content)) = true := by
      rcases h with h1 | h2
      · simp [h1]
      · simp [h2]
    simp [FixedSummarizer.make_api_call, hcond]
  · intro title channel hnone
    have : (fallback_summaries channel).find?
        (fun kv => strContains (pyLower title) (pyLower kv.1)) = none := by
      rw [List.find?_eq_none]
      intro kv hkv
      simp [hnone kv hkv]
    simp [generate_fallback_summary, this]

/-- Witness for `C3_canned_substitution`: a 2-character response is
replaced by the canned fallback for the title. -/
theorem C3_canned_substitution_witness :
    (pyStrip "hi").length < 100
    ∧ (FixedSummarizer.make_api_call cex1Video (ApiOutcome.ok "hi")).summary
        = generate_fallback_summary "A" "Chan" :=
  ⟨by decide, (C3_canned_substitution cex1Video "hi" (Or.inl (by decide))).1⟩

/-! ## Claim C4 — no summarization when the resolver yields nothing -/

/-- Claim C4: when the content resolver returns `(None, None)`,
`process_video` (enhanced and hybrid variants) does not invoke the
summarization client and returns the fixed "unavailable" result. -/
theorem C4_unavailable_skips_client (info : VideoInfo) (v hv : Video)
    (api : Except String String) (hid : info.videoId ≠ "") :
    (get_transcript_with_fallback v = none →
      EnhancedPodcastSummarizer.process_video info v api
        = (some { title := info.title, channel := info.channelTitle,
                  summary := some "无法获取视频内容（无字幕且无描述信息）",
                  video_id := info.videoId, url := videoUrl info.videoId,
                  content_type := "none" }, false))
    ∧ (get_content_with_fallbacks hv = none →
      HybridPodcastSummarizer.process_video info hv api
        = (some { title := info.title, channel := info.channelTitle,
                  summary := some "无法获取视频内容（无字幕、无描述信息）",
                  video_id := info.videoId, url := videoUrl info.videoId,
                  content_type := "failed" }, false)) := by
  constructor
  · intro hres
    simp [EnhancedPodcastSummarizer.process_video, hid, hres]
  · intro hres
    simp [HybridPodcastSummarizer.process_video, hid, hres]

/-- A video id with no transcripts in any language, an empty transcript
listing and no usable metadata. -/
def emptyVideo : Video :=
  { getTranscript := fun _ => none, transcriptListing := some [], details := none }

/-- Witness for `C4_unavailable_skips_client` on a concrete video with
no content at all: the client-invocation flag is `false` and the
summary is the fixed unavailable message. -/
theorem C4_unavailable_skips_client_witness :
    ("vid1" : String) ≠ ""
    ∧ get_transcript_with_fallback emptyVideo = none
    ∧ EnhancedPodcastSummarizer.process_video cex1Video emptyVideo (Except.ok "text")
        = (some { title := "A", channel := "Chan",
                  summary := some "无法获取视频内容（无字幕且无描述信息）",
                  video_id := "vid1", url := videoUrl "vid1",
                  content_type := "none" }, false) :=
  ⟨by decide, rfl,
   (C4_unavailable_skips_client cex1Video emptyVideo emptyVideo (Except.ok "text")
      (by decide)).1 rfl⟩

/-! ## Claim C5 — description fallback threshold -/

theorem enh_tryLang_none (v : Video) (h : ∀ lang, v.getTranscript lang = none) :
    ∀ langs, enh_tryLang v langs = none := by
  intro langs
  induction langs with
  | nil => rfl
  | cons lang rest ih => simp [enh_tryLang, h lang, ih]

/-- A video with no transcripts whose description has exactly 100
characters. -/
def video100 : Video :=
  { getTranscript := fun _ => none, transcriptListing := some [],
    details := some { title := "t", description := String.mk (List.replicate 100 'a'),
                      channel := "c", published_at := "p", view_count := "0" } }

/-- Claim C5 as stated is false at the boundary: a video with zero
transcripts and a description of exactly 100 characters (which is "at
least 100 characters") resolves to `(None, None)` because the code
requires `len(description) > 100`, strictly. -/
theorem C5_counterexample :
    (String.mk (List.replicate 100 'a')).length = 100
    ∧ get_transcript_with_fallback video100 = none :=
  ⟨rfl, rfl⟩

/-- Claim C5, amended: with zero transcripts, the resolver returns the
description with provenance `"description"` exactly when the
description is strictly longer than 100 characters, and `(None, None)`
when its length is at most 100 (so in particular for a 40-character
description). -/
theorem C5_description_threshold (v : Video) (d : VideoDetails)
    (hno : ∀ lang, v.getTranscript lang = none)
    (hlist : v.transcriptListing = some [])
    (hdet : v.details = some d) :
    (100 < d.description.length →
      get_transcript_with_fallback v = some (d.description, "description"))
    ∧ (d.description.length ≤ 100 → get_transcript_with_fallback v = none) := by
  constructor
  · intro hlen
    have hne : d.description ≠ "" := by
      intro h0
      rw [h0] at hlen
      simp at hlen
    simp [get_transcript_with_fallback, enh_tryLang_none v hno, hlist, hdet,
      enh_tryGenerated, enh_tryManual, hne, hlen]
  · intro hlen
    by_cases hne : d.description = ""
    · simp [get_transcript_with_fallback, enh_tryLang_none v hno, hlist, hdet,
        enh_tryGenerated, enh_tryManual, hne]
    · have : ¬ 100 < d.description.length := by omega
      simp [get_transcript_with_fallback, enh_tryLang_none v hno, hlist, hdet,
        enh_tryGenerated, enh_tryManual, hne, this]

/-- A video with no transcripts and a 101-character description. -/
def video101 : Video :=
  { getTranscript := fun _ => none, transcriptListing := some [],
    details := some { title := "t", description := String.mk (List.replicate 101 'a'),
                      channel := "c", published_at := "p", view_count := "0" } }

/-- A video with no transcripts and a 40-character description. -/
def video40 : Video :=
  { getTranscript := fun _ => none, transcriptListing := some [],
    details := some { title := "t", description := String.mk (List.replicate 40 'a'),
                      channel := "c", published_at := "p", view_count := "0" } }

/-- Witness for `C5_description_threshold`: a 101-character description
is returned with provenance `"description"`, a 40-character one yields
`(None, None)`. -/
theorem C5_description_threshold_witness :
    get_transcript_with_fallback video101
      = some (String.mk (List.replicate 101 'a'), "description")
    ∧ get_transcript_with_fallback video40 = none :=
  ⟨(C5_description_threshold video101
      { title := "t", description := String.mk (List.replicate 101 'a'),
        channel := "c", published_at := "p", view_count := "0" }
      (fun _ => rfl) rfl rfl).1 (by decide),
   (C5_description_threshold video40
      { title := "t", description := String.mk (List.replicate 40 'a'),
        channel := "c", published_at := "p", view_count := "0" }
      (fun _ => rfl) rfl rfl).2 (by decide)⟩

/-! ## Claim C6 — transcripts always beat the description fallback -/

theorem len_pos_ne_empty {s : String} (h : 50 < s.length) : s ≠ "" := by
  intro h0
  rw [h0] at h
  simp at h

/-- A transcript entry whose fetch succeeds with a joined text longer
than the 50-character acceptance threshold of
`enhanced_summarizer.py`. -/
def adequateFetch (t : TranscriptEntry) : Prop :=
  ∃ items, t.fetchResult = some items ∧ 50 < (String.intercalate " " items).length

theorem enh_tryLang_some {v : Video} : ∀ {langs : List String} {p : String × String},
    enh_tryLang v langs = some p → p.2 = "transcript" ∧ 50 < p.1.length := by
  intro langs
  induction langs with
  | nil => intro p h; simp [enh_tryLang] at h
  | cons lang rest ih =>
    intro p h
    rw [enh_tryLang] at h
    cases hg : v.getTranscript lang with
    | none => rw [hg] at h; exact ih h
    | some items =>
      rw [hg] at h
      simp only [] at h
      by_cases hc : (String.intercalate " " items ≠ ""
          ∧ 50 < (String.intercalate " " items).length)
      · rw [if_pos hc] at h
        cases h
        exact ⟨rfl, hc.2⟩
      · rw [if_neg hc] at h
        exact ih h

theorem enh_tryGenerated_some : ∀ {l : List TranscriptEntry} {p : String × String},
    enh_tryGenerated l = some p → p.2 = "auto_transcript" ∧ 50 < p.1.length := by
  intro l
  induction l with
  | nil => intro p h; simp [enh_tryGenerated] at h
  | cons t rest ih =>
    intro p h
    rw [enh_tryGenerated] at h
    by_cases hgen : t.is_generated
    · rw [if_pos hgen] at h
      cases hf : t.fetchResult with
      | none => rw [hf] at h; exact ih h
      | some items =>
        rw [hf] at h
        simp only [] at h
        by_cases hc : (String.intercalate " " items ≠ ""
            ∧ 50 < (String.intercalate " " items).length)
        · rw [if_pos hc] at h
          cases h
          exact ⟨rfl, hc.2⟩
        · rw [if_neg hc] at h
          exact ih h
    · rw [if_neg hgen] at h
      exact ih h

theorem enh_tryManual_some : ∀ {l : List TranscriptEntry} {p : String × String},
    enh_tryManual l = some p → p.2 = "manual_transcript" ∧ 50 < p.1.length := by
  intro l
  induction l with
  | nil => intro p h; simp [enh_tryManual] at h
  | cons t rest ih =>
    intro p h
    rw [enh_tryManual] at h
    by_cases hgen : t.is_generated
    · rw [if_pos hgen] at h
      exact ih h
    · rw [if_neg hgen] at h
      cases hf : t.fetchResult with
      | none => rw [hf] at h; exact ih h
      | some items =>
        rw [hf] at h
        simp only [] at h
        by_cases hc : (String.intercalate " " items ≠ ""
            ∧ 50 < (String.intercalate " " items).length)
        · rw [if_pos hc] at h
          cases h
          exact ⟨rfl, hc.2⟩
        · rw [if_neg hc] at h
          exact ih h

/-- If the auto-generated pass finds nothing, no generated entry of the
listing has an adequate fetch. -/
theorem enh_tryGenerated_none : ∀ {l : List TranscriptEntry},
    enh_tryGenerated l = none →
    ∀ t ∈ l, t.is_generated = true → ¬ adequateFetch t := by
  intro l
  induction l with
  | nil => intro _ t ht; simp at ht
  | cons t0 rest ih =>
    intro h t ht hgen hadq
    obtain ⟨items, hf, hlen⟩ := hadq
    rw [enh_tryGenerated] at h
    rcases List.mem_cons.mp ht with rfl | hmem
    · rw [if_pos hgen, hf] at h
      simp only [] at h
      rw [if_pos ⟨len_pos_ne_empty hlen, hlen⟩] at h
      exact Option.noConfusion h
    · by_cases hgen0 : t0.is_generated
      · rw [if_pos hgen0] at h
        cases hf0 : t0.fetchResult with
        | none =>
          rw [hf0] at h
          exact ih h t hmem hgen ⟨items, hf, hlen⟩
        | some items0 =>
          rw [hf0] at h
          simp only [] at h
          by_cases hc : (String.intercalate " " items0 ≠ ""
              ∧ 50 < (String.intercalate " " items0).length)
          · rw [if_pos hc] at h
            exact Option.noConfusion h
          · rw [if_neg hc] at h
            exact ih h t hmem hgen ⟨items, hf, hlen⟩
      · rw [if_neg hgen0] at h
        exact ih h t hmem hgen ⟨items, hf, hlen⟩

/-- If the manual pass finds nothing, no manual entry of the listing
has an adequate fetch. -/
theorem enh_tryManual_none : ∀ {l : List TranscriptEntry},
    enh_tryManual l = none →
    ∀ t ∈ l, t.is_generated = false → ¬ adequateFetch t := by
  intro l
  induction l with
  | nil => intro _ t ht; simp at ht
  | cons t0 rest ih =>
    intro h t ht hgen hadq
    obtain ⟨items, hf, hlen⟩ := hadq
    rw [enh_tryManual] at h
    rcases List.mem_cons.mp ht with rfl | hmem
    · rw [if_neg (by simp [hgen]), hf] at h
      simp only [] at h
      rw [if_pos ⟨len_pos_ne_empty hlen, hlen⟩] at h
      exact Option.noConfusion h
    · by_cases hgen0 : t0.is_generated
      · rw [if_pos hgen0] at h
        exact ih h t hmem hgen ⟨items, hf, hlen⟩
      · rw [if_neg hgen0] at h
        cases hf0 : t0.fetchResult with
        | none =>
          rw [hf0] at h
          exact ih h t hmem hgen ⟨items, hf, hlen⟩
        | some items0 =>
          rw [hf0] at h
          simp only [] at h
          by_cases hc : (String.intercalate " " items0 ≠ ""
              ∧ 50 < (String.intercalate " " items0).length)
          · rw [if_pos hc] at h
            exact Option.noConfusion h
          · rw [if_neg hc] at h
            exact ih h t hmem hgen ⟨items, hf, hlen⟩

/-- Claim C6: if the transcript listing of a video contains at least
one transcript whose joined text passes the length threshold, the
resolver returns non-empty text longer than the threshold whose
provenance is one of the three transcript tags — it never reaches the
description fallback. -/
theorem C6_transcript_wins (v : Video) (l : List TranscriptEntry)
    (hlist : v.transcriptListing = some l)
    (hex : ∃ t ∈ l, adequateFetch t) :
    ∃ text tag, get_transcript_with_fallback v = some (text, tag)
      ∧ text ≠ "" ∧ 50 < text.length
      ∧ (tag = "transcript" ∨ tag = "auto_transcript" ∨ tag = "manual_transcript")
      ∧ tag ≠ "description" := by
  obtain ⟨t, htl, hadq⟩ := hex
  cases h1 : enh_tryLang v languages_to_try with
  | some p =>
    obtain ⟨htag, hlen⟩ := enh_tryLang_some h1
    refine ⟨p.1, p.2, ?_, len_pos_ne_empty hlen, hlen, Or.inl htag, ?_⟩
    · simp [get_transcript_with_fallback, h1]
    · rw [htag]; decide
  | none =>
    cases h2 : enh_tryGenerated l with
    | some p =>
      obtain ⟨htag, hlen⟩ := enh_tryGenerated_some h2
      refine ⟨p.1, p.2, ?_, len_pos_ne_empty hlen, hlen, Or.inr (Or.inl htag), ?_⟩
      · simp [get_transcript_with_fallback, h1, hlist, h2]
      · rw [htag]; decide
    | none =>
      have hman : t.is_generated = false := by
        cases hgen : t.is_generated
        · rfl
        · exact absurd hadq (enh_tryGenerated_none h2 t htl hgen)
      cases h3 : enh_tryManual l with
      | some p =>
        obtain ⟨htag, hlen⟩ := enh_tryManual_some h3
        refine ⟨p.1, p.2, ?_, len_pos_ne_empty hlen, hlen, Or.inr (Or.inr htag), ?_⟩
        · simp [get_transcript_with_fallback, h1, hlist, h2, h3]
        · rw [htag]; decide
      | none =>
        exact absurd hadq (enh_tryManual_none h3 t htl hman)

/-- A 60-character transcript snippet. -/
def longSnippet : String := String.mk (List.replicate 60 'x')

/-- A video whose per-language fetches fail but whose listing holds one
adequate auto-generated transcript. -/
def videoWithAuto : Video :=
  { getTranscript := fun _ => none,
    transcriptListing := some [{ is_generated := true, fetchResult := some [longSnippet] }],
    details := none }

/-- Witness for `C6_transcript_wins` on `videoWithAuto`. -/
theorem C6_transcript_wins_witness :
    (∃ t ∈ [({ is_generated := true, fetchResult := some [longSnippet] } : TranscriptEntry)],
      adequateFetch t)
    ∧ (∃ text tag, get_transcript_with_fallback videoWithAuto = some (text, tag)
        ∧ text ≠ "" ∧ 50 < text.length
        ∧ (tag = "transcript" ∨ tag = "auto_transcript" ∨ tag = "manual_transcript")
        ∧ tag ≠ "description") :=
  ⟨⟨{ is_generated := true, fetchResult := some [longSnippet] },
    List.mem_singleton.mpr rfl, [longSnippet], rfl, by decide⟩,
   C6_transcript_wins videoWithAuto
     [{ is_generated := true, fetchResult := some [longSnippet] }] rfl
     ⟨{ is_generated := true, fetchResult := some [longSnippet] },
      List.mem_singleton.mpr rfl, [longSnippet], rfl, by decide⟩⟩

/-! ## Claim C7 — summarization client never raises, placeholder embeds reason -/

/-- Claim C7: on any failure of the network call, status check or
response parsing (all collapsed into the caught-exception outcome),
`summarize_content` of both the enhanced and hybrid clients returns a
non-empty placeholder string that embeds the failure reason. -/
theorem C7_placeholder_on_failure (content e : String) (hc : content ≠ "") :
    EnhancedPodcastSummarizer.summarize_content content (Except.error e)
        = some ("摘要生成失败: " ++ e)
    ∧ HybridPodcastSummarizer.summarize_content content (Except.error e)
        = some ("摘要生成失败: " ++ e)
    ∧ ("摘要生成失败: " ++ e) ≠ ""
    ∧ strContains ("摘要生成失败: " ++ e) e = true := by
  refine ⟨?_, ?_, ?_, strContains_append_right _ _⟩
  · simp [EnhancedPodcastSummarizer.summarize_content, hc]
  · simp [HybridPodcastSummarizer.summarize_content, hc]
  · intro h0
    have hdata := congrArg String.data h0
    rw [String.data_append] at hdata
    simp at hdata

/-- Witness for `C7_placeholder_on_failure` at a concrete transcript
and timeout error. -/
theorem C7_placeholder_on_failure_witness :
    EnhancedPodcastSummarizer.summarize_content "some transcript"
        (Except.error "HTTPSConnectionPool timeout")
      = some ("摘要生成失败: " ++ "HTTPSConnectionPool timeout")
    ∧ strContains ("摘要生成失败: " ++ "HTTPSConnectionPool timeout")
        "HTTPSConnectionPool timeout" = true :=
  ⟨(C7_placeholder_on_failure "some transcript" "HTTPSConnectionPool timeout"
      (by decide)).1,
   (C7_placeholder_on_failure "some transcript" "HTTPSConnectionPool timeout"
      (by decide)).2.2.2⟩

/-! ## Claim C8 — report sections: count, order, idempotence, placeholder -/

/-- The style-based title filter of `sectionTitles`. -/
def titleOfFlowable (f : Flowable) : Option String :=
  match f with
  | Flowable.para t "title" => some t
  | _ => none

theorem sectionTitles_eq_filterMap (story : List Flowable) :
    sectionTitles story = story.filterMap titleOfFlowable := by
  rfl

theorem sectionTitles_sectionFlowables (sec : ReportSection) :
    sectionTitles (sectionFlowables sec) = [sec.titlePara] := by
  rw [sectionTitles_eq_filterMap, sectionFlowables]
  rw [List.filterMap_cons, List.filterMap_cons]
  have h1 : titleOfFlowable (Flowable.para sec.titlePara "title") = some sec.titlePara := rfl
  have h2 : titleOfFlowable (Flowable.para sec.channelPara "meta") = none := rfl
  rw [h1, h2, List.filterMap_append]
  have h3 : (match sec.linkPara with
      | some l => [Flowable.para l "link"]
      | none => []).filterMap titleOfFlowable = [] := by
    cases sec.linkPara with
    | none => rfl
    | some l => rfl
  have h4 : (sec.bodyParas.map (fun p => Flowable.para p "summary")).filterMap
      titleOfFlowable = [] := by
    induction sec.bodyParas with
    | nil => rfl
    | cons p rest ih =>
      rw [List.map_cons, List.filterMap_cons]
      have hp : titleOfFlowable (Flowable.para p "summary") = none := rfl
      rw [hp]
      exact ih
  rw [h3, h4]
  rfl

theorem sectionTitles_storyBlocks (summaries : List SummaryInput) :
    sectionTitles (storyBlocks summaries)
      = summaries.map (fun s => (renderSection s).titlePara) := by
  induction summaries with
  | nil => rfl
  | cons s rest ih =>
    cases rest with
    | nil => simpa [storyBlocks] using sectionTitles_sectionFlowables (renderSection s)
    | cons s2 r2 =>
      rw [storyBlocks, sectionTitles_eq_filterMap, List.filterMap_append,
        List.filterMap_cons]
      have hsp : titleOfFlowable Flowable.spacer = none := rfl
      rw [hsp]
      rw [sectionTitles_eq_filterMap] at ih
      rw [← sectionTitles_eq_filterMap, sectionTitles_sectionFlowables, ih,
        List.map_cons]
      rfl

/-- Claim C8: the rendered story has exactly one section per input
element, in input order; re-running the renderer on the same list (even
on a different day, i.e. with a different header date) reproduces the
same sections in the same order; a `None`-valued or empty summary body
is replaced by the fixed placeholder sentence, and a missing summary
key by the fixed default text `"无内容。"`. -/
theorem C8_report_sections (d1 d2 : String) (summaries : List SummaryInput) :
    sectionTitles (generate_report_story d1 summaries)
        = summaries.map (fun s => (renderSection s).titlePara)
    ∧ (sectionTitles (generate_report_story d1 summaries)).length = summaries.length
    ∧ (generate_report_story d1 summaries).tail = (generate_report_story d2 summaries).tail
    ∧ (∀ s : SummaryInput, s.summary = some none ∨ s.summary = some (some "") →
        (renderSection s).bodyParas = [reportPlaceholder])
    ∧ (∀ s : SummaryInput, s.summary = none →
        (renderSection s).bodyParas = ["无内容。"]) := by
  have hmain : sectionTitles (generate_report_story d1 summaries)
      = summaries.map (fun s => (renderSection s).titlePara) := by
    rw [generate_report_story, sectionTitles_eq_filterMap, List.filterMap_cons]
    have hh : titleOfFlowable (Flowable.para
        (d1 ++ " YouTube播客摘要 (共" ++ toString summaries.length ++ "个视频)")
        "header") = none := rfl
    rw [hh, ← sectionTitles_eq_filterMap]
    exact sectionTitles_storyBlocks summaries
  refine ⟨hmain, ?_, rfl, ?_, ?_⟩
  · rw [hmain, List.length_map]
  · intro s hs
    rcases hs with hs | hs <;> simp [renderSection, hs]
  · intro s hs
    simp [renderSection, hs]
    decide

/-- A summary dict whose `summary` key holds the empty string. -/
def emptySummaryInput : SummaryInput :=
  { title := some "T", channel := some "C", summary := some (some ""), url := some "u" }

/-- A summary dict with no `summary` key at all. -/
def missingSummaryInput : SummaryInput :=
  { title := some "T", channel := some "C", summary := none, url := none }

/-- Witness for `C8_report_sections`: an empty-string summary renders
as the placeholder sentence; a summary with a missing key renders as
the default text. -/
theorem C8_report_sections_witness :
    (renderSection emptySummaryInput).bodyParas = [reportPlaceholder]
    ∧ (renderSection missingSummaryInput).bodyParas = ["无内容。"] :=
  ⟨(C8_report_sections "2025年01月01日" "2025年01月02日" []).2.2.2.1
      emptySummaryInput (Or.inr rfl),
   (C8_report_sections "2025年01月01日" "2025年01月02日" []).2.2.2.2
      missingSummaryInput rfl⟩

/-! ## Claim C9 — partial-match title translation is not verbatim -/

/-- Claim C9: the title `"History"` equals no key of the translation
table and contains no key as a substring, yet `translate_title` does
not return it verbatim — the partial-match rule fires because `"is"`,
one of the first two lowercase words of the key `"Opendoor is a
Software Business"`, occurs inside `"history"`; and in general any
title containing one of the first two lowercase words of some key is
mapped to a value of the table. -/
theorem C9_partial_match_translation :
    FixedPDFGenerator.translate_title "History" = "Opendoor是一个软件企业"
    ∧ FixedPDFGenerator.translate_title "History" ≠ "History"
    ∧ (∀ kv ∈ FixedPDFGenerator.translations, kv.1 ≠ "History")
    ∧ (∀ kv ∈ FixedPDFGenerator.translations,
        strContains (pyLower "History") (pyLower kv.1) = false)
    ∧ (∀ title : String,
        (∃ kv ∈ FixedPDFGenerator.translations,
          ∃ w ∈ (pySplit (pyLower kv.1)).take 2,
            strContains (pyLower title) w = true) →
        ∃ kv ∈ FixedPDFGenerator.translations,
          FixedPDFGenerator.translate_title title = kv.2) := by
  refine ⟨by decide, by decide, by decide, by decide, ?_⟩
  intro title hex
  cases hexact : FixedPDFGenerator.translations.find? (fun kv => kv.1 = title) with
  | some kv =>
    refine ⟨kv, List.mem_of_find?_eq_some hexact, ?_⟩
    simp [FixedPDFGenerator.translate_title, hexact]
  | none =>
    obtain ⟨kv0, hmem0, w, hw, hcont⟩ := hex
    have hp : partialMatch title kv0.1 = true := by
      have hany : ((pySplit (pyLower kv0.1)).take 2).any
          (fun w2 => strContains (pyLower title) w2) = true :=
        List.any_eq_true.mpr ⟨w, hw, hcont⟩
      simp [partialMatch, hany]
    have hsome : (FixedPDFGenerator.translations.find?
        (fun kv => partialMatch title kv.1)).isSome := by
      rw [List.find?_isSome]
      exact ⟨kv0, hmem0, hp⟩
    obtain ⟨kv, hfind⟩ := Option.isSome_iff_exists.mp hsome
    refine ⟨kv, List.mem_of_find?_eq_some hfind, ?_⟩
    simp [FixedPDFGenerator.translate_title, hexact, hfind]

/-- Witness for `C9_partial_match_translation`: the made-up title
`"pivot to victory"` contains the word `"to"` of the key `"How to Live
in Everyone Else's Future"` and is translated to a table value. -/
theorem C9_partial_match_translation_witness :
    ∃ kv ∈ FixedPDFGenerator.translations,
      FixedPDFGenerator.translate_title "pivot to victory" = kv.2 :=
  C9_partial_match_translation.2.2.2.2 "pivot to victory" (by decide)

/-! ## Claim C10 — email delivery without attachment, boolean return -/

/-- Claim C10: when `pdf_path` is `None` (or empty) or names a file
that does not exist, `send_report` still builds and sends the message
with no attachment; it returns `True` exactly when the SMTP
transaction succeeds and `False` when the transport raises — the
exception never propagates. -/
theorem C10_send_report_no_attachment (username to_email : String)
    (pdf_path : Option String) (subject : Option String) (fe : String → Bool)
    (today now : String) (smtp : SmtpOutcome)
    (h : pdf_path = none ∨ ∃ p, pdf_path = some p ∧ fe p = false) :
    (EmailSender.send_report username to_email pdf_path subject fe today now
        smtp).1.attachment = none
    ∧ (smtp = SmtpOutcome.ok →
        (EmailSender.send_report username to_email pdf_path subject fe today now
          smtp).2 = true)
    ∧ (∀ e, smtp = SmtpOutcome.error e →
        (EmailSender.send_report username to_email pdf_path subject fe today now
          smtp).2 = false) := by
  rcases h with rfl | ⟨p, rfl, hfe⟩
  · refine ⟨?_, fun hok => ?_, fun e herr => ?_⟩
    · cases smtp <;> rfl
    · subst hok; rfl
    · subst herr; rfl
  · refine ⟨?_, fun hok => ?_, fun e herr => ?_⟩
    · cases smtp <;> simp [EmailSender.send_report, hfe]
    · subst hok; rfl
    · subst herr; rfl

/-- Witness for `C10_send_report_no_attachment`: a nonexistent path on
a successful SMTP transaction yields `True` with no attachment. -/
theorem C10_send_report_no_attachment_witness :
    (EmailSender.send_report "me@qq.com" "you@qq.com" (some "missing.pdf") none
        (fun _ => false) "2025年01月01日" "2025-01-01 08:00:00"
        SmtpOutcome.ok).1.attachment = none
    ∧ (EmailSender.send_report "me@qq.com" "you@qq.com" (some "missing.pdf") none
        (fun _ => false) "2025年01月01日" "2025-01-01 08:00:00"
        SmtpOutcome.ok).2 = true :=
  ⟨(C10_send_report_no_attachment "me@qq.com" "you@qq.com" (some "missing.pdf") none
      (fun _ => false) "2025年01月01日" "2025-01-01 08:00:00" SmtpOutcome.ok
      (Or.inr ⟨"missing.pdf", rfl, rfl⟩)).1,
   (C10_send_report_no_attachment "me@qq.com" "you@qq.com" (some "missing.pdf") none
      (fun _ => false) "2025年01月01日" "2025-01-01 08:00:00" SmtpOutcome.ok
      (Or.inr ⟨"missing.pdf", rfl, rfl⟩)).2.1 rfl⟩
